import Mathlib

/-!
Verification of the HL7/MLLP exchange engine
(`src/hl7.py`, `src/send_message.py`, `src/stitch_up.py`).

Messages are modelled at the character level: a message text is a
`String`, its `data` field (a `List Char`) is what the embedded
functions manipulate, mirroring the Python string operations used by
the source.  Bytes on the wire are modelled as `List Char` (the
traffic is ASCII; `decode('utf-8')` is the identity on this model).
-/

namespace HL7

/-- Splitting a character list on a separator character, the way
Python `str.split(sep)` behaves for a one-character separator:
`splitOnChar sep l` always returns at least one (possibly empty)
part, and the parts do not contain `sep`. -/
def splitOnChar (sep : Char) : List Char → List (List Char)
  | [] => [[]]
  | c :: rest =>
    let ps := splitOnChar sep rest
    if c = sep then [] :: ps
    else (c :: ps.headD []) :: ps.tail

/-- Joining parts back with the separator, the way Python
`sep.join(parts)` behaves. -/
def joinChar (sep : Char) : List (List Char) → List Char
  | [] => []
  | [p] => p
  | p :: q :: ps => p ++ sep :: joinChar sep (q :: ps)

/-- Python `str.replace("\n", "\r")` on character lists. -/
def normalizeNL (l : List Char) : List Char :=
  l.map (fun c => if c = '\n' then '\r' else c)

/-- Python `str.strip()` on character lists: drop leading and
trailing whitespace. -/
def stripChars (l : List Char) : List Char :=
  ((l.dropWhile Char.isWhitespace).reverse.dropWhile Char.isWhitespace).reverse

/-- Normalization of an HL7 text: unify line-ending conventions
(`\n` becomes `\r`, the ER7 segment terminator) and strip outer
whitespace.  This is the `normalize` of the round-trip property. -/
def normalize (s : String) : String :=
  String.mk (stripChars (normalizeNL s.data))

def isSegNameChar (c : Char) : Bool :=
  (decide ('A' ≤ c) && decide (c ≤ 'Z')) || (decide ('0' ≤ c) && decide (c ≤ '9'))

/-- A structurally valid ER7 segment: a three-character name of
uppercase letters or digits, followed (when any fields are present)
by the field separator. -/
def validSegment (seg : List Char) : Bool :=
  decide ((seg.take 3).length = 3) && (seg.take 3).all isSegNameChar &&
    ((seg.drop 3).headD '|' = '|')

/-- A structurally valid ER7 message: every segment is valid and the
first segment is the `MSH` header carrying the field separator. -/
def validMessage (segs : List (List Char)) : Bool :=
  segs.all validSegment && ("MSH|".data.isPrefixOf (segs.headD []))

/-- Modelled from the spec: the ER7 parser (`hl7apy.parser.parse_message`)
is a third-party dependency whose code is not under `src/`; it is
modelled from the §4.2 contract.  `parse` normalizes line endings,
splits the text into segments on the `\r` terminator, and fails
(returns `none`, modelling `ParserError`) unless segment names are
three uppercase characters, the field separator sits in the expected
position, and the leading segment is `MSH`.  Segments are kept
verbatim as character lists. -/
def parse (text : String) : Option (List (List Char)) :=
  let segs := splitOnChar '\r' (stripChars (normalizeNL text.data))
  if validMessage segs then some segs else none

/-- Modelled from the spec: serialization back to ER7 text
(`Message.to_er7` of hl7apy) joins the segments with the `\r`
terminator. -/
def serialize (m : List (List Char)) : String :=
  String.mk (joinChar '\r' m)

/-- The three-character names of a parsed message's segments
(hl7apy `segment.name` for each child of the message). -/
def segNames (segs : List (List Char)) : List String :=
  segs.map (fun s => String.mk (s.take 3))

/-- The function `validate_message` of `src/hl7.py`: parse the text (with a flat
segment view), then check that the set of segment names contains the
required `MSH` and `PID`; any parse failure is caught and yields
`false`.  Totality of this Lean function models the `except` clause:
no exception reaches the caller. -/
def validate_message (data : String) : Bool :=
  match parse data with
  | none => false
  | some segs => (segNames segs).contains "MSH" && (segNames segs).contains "PID"

/-- Field access on a raw segment: 1-based position `n` is the
`(n-1)`-th pipe-separated token; an absent field reads as the empty
string (hl7apy `.value` of an unset field). For the `MSH` segment this
agrees with HL7 numbering, where MSH-1 is the separator itself: e.g.
MSH-3 is token index 2 of `MSH|^~\&|SEND|...`. -/
def getFieldOf (seg : List Char) (n : Nat) : String :=
  String.mk ((splitOnChar '|' seg).getD (n - 1) [])

/-- The `n`-th MSH field of a parsed message (whose head is the MSH
segment). -/
def mshField (segs : List (List Char)) (n : Nat) : String :=
  getFieldOf (segs.headD []) n

/-- The fields the ACK builders of `src/hl7.py` populate on the fresh
`Message("ACK")` before serializing it: the MSH routing/control
fields and the MSA fields. -/
structure AckMsg where
  msh3 : String
  msh4 : String
  msh5 : String
  msh6 : String
  msh7 : String
  msh9 : String
  msh10 : String
  msa1 : String
  msa2 : String
  msa3 : String
deriving DecidableEq, Repr

/-- The function `ack_message_back` of `src/hl7.py`: parse the original, build the
accept ACK by swapping sender/receiver (MSH-3/4 from the original's
MSH-5/6 and vice versa), stamp the current time into MSH-7 (`now` is
the impure `datetime.now()` value, passed explicitly), set MSH-9 to
the literal `ACK`, MSH-10 to the constant `ACK12345`, MSA-1 to `AA`
and MSA-2 to the original's control ID MSH-10.  Any parse failure is
caught and yields `none` (the Python `return None`). -/
def ack_message_back (original_message : String) (now : String) : Option AckMsg :=
  (parse original_message).map fun segs =>
    { msh3 := mshField segs 5
      msh4 := mshField segs 6
      msh5 := mshField segs 3
      msh6 := mshField segs 4
      msh7 := now
      msh9 := "ACK"
      msh10 := "ACK12345"
      msa1 := "AA"
      msa2 := mshField segs 10
      msa3 := "" }

/-- The function `create_error_ack` of `src/hl7.py`: same sender/receiver swap,
but MSH-10 is a locally generated `ERR` + timestamp control ID,
MSA-1 is `AE` and MSA-3 carries the error description.  Parse
failure yields `none`. -/
def create_error_ack (original_message : String) (now : String) : Option AckMsg :=
  (parse original_message).map fun segs =>
    { msh3 := mshField segs 5
      msh4 := mshField segs 6
      msh5 := mshField segs 3
      msh6 := mshField segs 4
      msh7 := now
      msh9 := "ACK"
      msh10 := "ERR" ++ now
      msa1 := "AE"
      msa2 := ""
      msa3 := "Message validation failed: missing required segments" }

/-! ## MLLP framing (`src/hl7.py` lines 18-49) -/

/-- The MLLP start-of-block byte `0x0B`. -/
def MLLP_START : Char := Char.ofNat 11

/-- The MLLP end-of-block bytes `0x1C 0x0D`. -/
def MLLP_END : List Char := [Char.ofNat 28, '\r']

/-- The function `wrap_with_mllp`: prepend the start marker and append the end
marker to the encoded message. -/
def wrap_with_mllp (message : String) : List Char :=
  MLLP_START :: message.data ++ MLLP_END

/-- The function `remove_mllp_framing_bytes` of `src/hl7.py`: if the received
chunk both starts with the start marker and ends with the end marker,
slice them off (`data[1:-2]`); then decode and replace `\n` with
`\r`.  Note this operates on one delivered chunk at a time and keeps
no buffer across calls. -/
def remove_mllp_framing_bytes (data : List Char) : String :=
  let core :=
    if [MLLP_START].isPrefixOf data && MLLP_END.isSuffixOf data then
      ((data.drop 1).dropLast).dropLast
    else data
  String.mk (normalizeNL core)

/-! ## Receiver session (`handle_tcp_connection` of `src/hl7.py`)

The per-frame body of the `while True` loop: validate the decoded
chunk; build the accept or reject ACK; if an ACK was built, write it
back (`writer.write` + `await writer.drain()`, which can raise); then
persist the raw message with `write_to_file` (which can raise).  An
exception from either effect propagates out of the loop and ends the
session.  The two effects' outcomes are the environment of a frame. -/

/-- Observable effects of processing one frame. -/
inductive Ev where
  | sentAck (a : AckMsg)
  | persisted (msg : String)
deriving DecidableEq, Repr

/-- A session-terminating exception raised inside the loop body. -/
inductive SessErr where
  | sendFailed
  | persistFailed
deriving DecidableEq, Repr

/-- Environment of one frame: whether the ACK write and the
`write_to_file` call succeed, and the wall-clock value used for the
ACK timestamp. -/
structure FrameEnv where
  sendOk : Bool
  persistOk : Bool
  now : String
deriving DecidableEq, Repr

/-- The ACK the loop body tries to build for a frame: the accept ACK
when validation succeeds, the reject ACK otherwise (`None` when the
builder failed). -/
def ackFor (msg : String) (now : String) : Option AckMsg :=
  if validate_message msg then ack_message_back msg now
  else create_error_ack msg now

/-- One iteration of the receiver loop on a decoded frame: returns
the effects that actually occurred and the exception, if one was
raised.  The ACK write happens before `write_to_file`; an exception
from the write skips persistence, and a persistence exception is not
caught either. -/
def processFrame (msg : String) (env : FrameEnv) : List Ev × Option SessErr :=
  match ackFor msg env.now with
  | some a =>
    if env.sendOk then
      if env.persistOk then ([Ev.sentAck a, Ev.persisted msg], none)
      else ([Ev.sentAck a], some SessErr.persistFailed)
    else ([], some SessErr.sendFailed)
  | none =>
    if env.persistOk then ([Ev.persisted msg], none)
    else ([], some SessErr.persistFailed)

/-- A receiver session over a sequence of delivered frames: frames
are processed in order until one raises, which ends the session and
drops the remaining frames (the exception propagates out of the
`while True` loop). -/
def session : List (String × FrameEnv) → List Ev × Option SessErr
  | [] => ([], none)
  | (msg, env) :: rest =>
    match processFrame msg env with
    | (evs, none) =>
      let r := session rest
      (evs ++ r.1, r.2)
    | (evs, some e) => (evs, some e)

/-- The messages persisted in an event trace, in order. -/
def persistedMsgs (evs : List Ev) : List String :=
  evs.filterMap fun e =>
    match e with
    | Ev.persisted m => some m
    | _ => none

/-- The ACKs sent in an event trace, in order. -/
def sentAcks (evs : List Ev) : List AckMsg :=
  evs.filterMap fun e =>
    match e with
    | Ev.sentAck a => some a
    | _ => none

/-! ## Transmitter delivery engine (`src/send_message.py`)

`parse_and_send_message`'s send loop: for each gathered message, a
`while attempt < 5` loop tries `sendall` + `recv`.  Success breaks
out; a `BrokenPipeError` increments `attempt`, sleeps 300 seconds,
opens a fresh socket and reconnects to the same host/port, then
retries; any other exception breaks out with `success` still false.
After the loop, `if success is False: return` aborts the whole run.
The outcome of the `i`-th attempt on a message is drawn from an
outcome list (index `i`, defaulting to success). -/

/-- Outcome of one send attempt. -/
inductive Outcome where
  | ok
  | brokenPipe
  | otherError
deriving DecidableEq, Repr

/-- Observable effects of the send loop. -/
inductive SendEv where
  | delivered
  | backoff (secs : Nat)
  | reconnect (host : String) (port : Nat)
deriving DecidableEq, Repr

/-- The `while attempt < 5` loop, unrolled on the remaining fuel
`5 - attempt`: at fuel 0 the guard fails and the loop exits
unsuccessfully.  A successful attempt delivers the message exactly
once; a broken pipe backs off 300 seconds, reconnects to the same
host and port, and retries with `attempt + 1`; any other error exits
the loop unsuccessfully at once. -/
def sendLoopAux (host : String) (port : Nat) (outcomes : List Outcome) :
    Nat → Nat → Bool × List SendEv
  | _, 0 => (false, [])
  | attempt, fuel + 1 =>
    match outcomes.getD attempt Outcome.ok with
    | Outcome.ok => (true, [SendEv.delivered])
    | Outcome.otherError => (false, [])
    | Outcome.brokenPipe =>
      let r := sendLoopAux host port outcomes (attempt + 1) fuel
      (r.1, SendEv.backoff 300 :: SendEv.reconnect host port :: r.2)

/-- Delivery of one message: the attempt loop entered with
`attempt = 0` and the cap of 5 attempts. -/
def sendOneMessage (host : String) (port : Nat) (outcomes : List Outcome) :
    Bool × List SendEv :=
  sendLoopAux host port outcomes 0 5

/-- The run-level loop over the gathered messages, in enumeration
order: each message's send loop runs; if it did not succeed the
function returns, so no later message is attempted.  The result list
records, per attempted message, its success flag and events. -/
def runDeliveries (host : String) (port : Nat) :
    List (List Outcome) → List (Bool × List SendEv)
  | [] => []
  | outs :: rest =>
    let r := sendOneMessage host port outs
    if r.1 then r :: runDeliveries host port rest else [r]

/-! ## Segment stitcher (`src/stitch_up.py`)

The merge loop works on the line lists of the two captured texts
(Python `text.strip().splitlines()`); the merged output is the line
list later joined with newlines. -/

/-- The function `get_obx_segments`: the stripped lines starting with `OBX|`, in
order. -/
def get_obx_segments (msgLines : List String) : List String :=
  msgLines.filterMap fun line =>
    let t := stripChars line.data
    if "OBX|".data.isPrefixOf t then some (String.mk t) else none

/-- A terminal segment line: starts with `SPM|` or `ZSP|`
(unstripped, as in the insertion scan of the merge loop). -/
def isTerminalLine (line : String) : Bool :=
  "SPM|".data.isPrefixOf line.data || "ZSP|".data.isPrefixOf line.data

/-- The insertion index: the first terminal line, scanning top-down,
defaulting to the end of the text (`insert_idx = len(lines)`).  Lean's
`List.findIdx` returns the length when no line matches, exactly the
Python default. -/
def insertIdx (lines : List String) : Nat :=
  lines.findIdx isTerminalLine

/-- Rewriting one OBX line's sequence-number field: split on `|`, set
token 1 (OBX-1, the set ID) to the decimal rendering of `n`, rejoin
(`parts[1] = str(next_index); '|'.join(parts)`). -/
def setSeq (line : String) (n : Nat) : String :=
  String.mk (joinChar '|' ((splitOnChar '|' line.data).set 1 (toString n).data))

/-- Renumbering the extracted OBX lines consecutively from `n`. -/
def renumber : List String → Nat → List String
  | [], _ => []
  | l :: ls, n => setSeq l n :: renumber ls (n + 1)

/-- The per-name merge of the stitcher's loop body: with no OBX
segment on the response side the name is skipped (no output file);
otherwise the response OBX lines are renumbered starting at one plus
the count of OBX lines already on the result side and spliced in at
the insertion index of the result side's lines. -/
def stitch (resultLines responseLines : List String) : Option (List String) :=
  let responseObx := get_obx_segments responseLines
  if responseObx.isEmpty then none
  else
    let resultObx := get_obx_segments resultLines
    let newObx := renumber responseObx (resultObx.length + 1)
    let idx := insertIdx resultLines
    some (resultLines.take idx ++ newObx ++ resultLines.drop idx)

/-! ## Helper lemmas -/

theorem splitOnChar_ne_nil (sep : Char) (l : List Char) :
    splitOnChar sep l ≠ [] := by
  cases l with
  | nil => simp [splitOnChar]
  | cons c rest =>
    simp only [splitOnChar]
    by_cases h : c = sep <;> simp [h]

theorem joinChar_cons_cons (sep : Char) (c : Char) (q : List Char)
    (ps : List (List Char)) :
    joinChar sep ((c :: q) :: ps) = c :: joinChar sep (q :: ps) := by
  cases ps <;> rfl

theorem joinChar_splitOnChar (sep : Char) (l : List Char) :
    joinChar sep (splitOnChar sep l) = l := by
  induction l with
  | nil => rfl
  | cons c rest ih =>
    simp only [splitOnChar]
    by_cases h : c = sep
    · subst h
      simp only [if_pos rfl]
      obtain ⟨q, ps, hq⟩ := List.exists_cons_of_ne_nil (splitOnChar_ne_nil c rest)
      rw [hq]
      rw [hq] at ih
      show [] ++ c :: joinChar c (q :: ps) = c :: rest
      simp [ih]
    · simp only [if_neg h]
      obtain ⟨q, ps, hq⟩ := List.exists_cons_of_ne_nil (splitOnChar_ne_nil sep rest)
      rw [hq]
      rw [hq] at ih
      show joinChar sep ((c :: q) :: ps) = c :: rest
      rw [joinChar_cons_cons]
      rw [ih]

/-! ## Claim theorems -/

/-- C8: for every syntactically valid ER7 text, serializing the
message obtained by parsing that text equals the text after
normalization of line-ending conventions: serialize after parse is
the identity up to `normalize`. -/
theorem serialize_parse_roundtrip (text : String) (m : List (List Char))
    (h : parse text = some m) : serialize m = normalize text := by
  unfold parse at h
  by_cases hv : validMessage (splitOnChar '\r' (stripChars (normalizeNL text.data)))
  · simp only [hv, if_true] at h
    obtain rfl : splitOnChar '\r' (stripChars (normalizeNL text.data)) = m :=
      Option.some.inj h
    unfold serialize normalize
    rw [joinChar_splitOnChar]
  · simp [hv] at h

/-- C8 witness: a concrete valid ER7 text round-trips. -/
theorem serialize_parse_roundtrip_witness :
    parse "MSH|^~\\&|A|B\nPID|1" = some ["MSH|^~\\&|A|B".data, "PID|1".data] ∧
    serialize ["MSH|^~\\&|A|B".data, "PID|1".data] = normalize "MSH|^~\\&|A|B\nPID|1" :=
  ⟨by decide,
   serialize_parse_roundtrip "MSH|^~\\&|A|B\nPID|1"
     ["MSH|^~\\&|A|B".data, "PID|1".data] (by decide)⟩

/-- C1: for every parseable original message, the accept
acknowledgment maps fields as a sender/receiver swap — its MSH-3/4
are the original's MSH-5/6, its MSH-5/6 the original's MSH-3/4 — and
its MSH-9 is the literal `ACK`, MSA-1 is `AA`, and MSA-2 echoes the
original's MSH-10 control ID. -/
theorem ack_field_mapping (orig now : String) (segs : List (List Char))
    (a : AckMsg) (hp : parse orig = some segs)
    (ha : ack_message_back orig now = some a) :
    a.msh3 = mshField segs 5 ∧ a.msh4 = mshField segs 6 ∧
    a.msh5 = mshField segs 3 ∧ a.msh6 = mshField segs 4 ∧
    a.msh9 = "ACK" ∧ a.msa1 = "AA" ∧ a.msa2 = mshField segs 10 := by
  unfold ack_message_back at ha
  rw [hp] at ha
  rw [Option.map_some'] at ha
  obtain rfl := Option.some.inj ha
  exact ⟨rfl, rfl, rfl, rfl, rfl, rfl, rfl⟩

/-- C1 witness: the spec's concrete example, with the original's
sender `SEND`/`SEND_FAC`, receiver `RECV`/`RECV_FAC` and control ID
`CTRL1`. -/
theorem ack_field_mapping_witness :
    parse "MSH|^~\\&|SEND|SEND_FAC|RECV|RECV_FAC|TS|X|ORU|CTRL1\rPID|1" =
      some ["MSH|^~\\&|SEND|SEND_FAC|RECV|RECV_FAC|TS|X|ORU|CTRL1".data, "PID|1".data] ∧
    ack_message_back "MSH|^~\\&|SEND|SEND_FAC|RECV|RECV_FAC|TS|X|ORU|CTRL1\rPID|1" "TS2" =
      some { msh3 := "RECV", msh4 := "RECV_FAC", msh5 := "SEND", msh6 := "SEND_FAC",
             msh7 := "TS2", msh9 := "ACK", msh10 := "ACK12345",
             msa1 := "AA", msa2 := "CTRL1", msa3 := "" } ∧
    (AckMsg.msh3 { msh3 := "RECV", msh4 := "RECV_FAC", msh5 := "SEND", msh6 := "SEND_FAC",
                   msh7 := "TS2", msh9 := "ACK", msh10 := "ACK12345",
                   msa1 := "AA", msa2 := "CTRL1", msa3 := "" } =
       mshField ["MSH|^~\\&|SEND|SEND_FAC|RECV|RECV_FAC|TS|X|ORU|CTRL1".data, "PID|1".data] 5 ∧
     AckMsg.msh4 { msh3 := "RECV", msh4 := "RECV_FAC", msh5 := "SEND", msh6 := "SEND_FAC",
                   msh7 := "TS2", msh9 := "ACK", msh10 := "ACK12345",
                   msa1 := "AA", msa2 := "CTRL1", msa3 := "" } =
       mshField ["MSH|^~\\&|SEND|SEND_FAC|RECV|RECV_FAC|TS|X|ORU|CTRL1".data, "PID|1".data] 6 ∧
     AckMsg.msh5 { msh3 := "RECV", msh4 := "RECV_FAC", msh5 := "SEND", msh6 := "SEND_FAC",
                   msh7 := "TS2", msh9 := "ACK", msh10 := "ACK12345",
                   msa1 := "AA", msa2 := "CTRL1", msa3 := "" } =
       mshField ["MSH|^~\\&|SEND|SEND_FAC|RECV|RECV_FAC|TS|X|ORU|CTRL1".data, "PID|1".data] 3 ∧
     AckMsg.msh6 { msh3 := "RECV", msh4 := "RECV_FAC", msh5 := "SEND", msh6 := "SEND_FAC",
                   msh7 := "TS2", msh9 := "ACK", msh10 := "ACK12345",
                   msa1 := "AA", msa2 := "CTRL1", msa3 := "" } =
       mshField ["MSH|^~\\&|SEND|SEND_FAC|RECV|RECV_FAC|TS|X|ORU|CTRL1".data, "PID|1".data] 4 ∧
     AckMsg.msh9 { msh3 := "RECV", msh4 := "RECV_FAC", msh5 := "SEND", msh6 := "SEND_FAC",
                   msh7 := "TS2", msh9 := "ACK", msh10 := "ACK12345",
                   msa1 := "AA", msa2 := "CTRL1", msa3 := "" } = "ACK" ∧
     AckMsg.msa1 { msh3 := "RECV", msh4 := "RECV_FAC", msh5 := "SEND", msh6 := "SEND_FAC",
                   msh7 := "TS2", msh9 := "ACK", msh10 := "ACK12345",
                   msa1 := "AA", msa2 := "CTRL1", msa3 := "" } = "AA" ∧
     AckMsg.msa2 { msh3 := "RECV", msh4 := "RECV_FAC", msh5 := "SEND", msh6 := "SEND_FAC",
                   msh7 := "TS2", msh9 := "ACK", msh10 := "ACK12345",
                   msa1 := "AA", msa2 := "CTRL1", msa3 := "" } =
       mshField ["MSH|^~\\&|SEND|SEND_FAC|RECV|RECV_FAC|TS|X|ORU|CTRL1".data, "PID|1".data] 10) :=
  ⟨by decide, by decide,
   ack_field_mapping "MSH|^~\\&|SEND|SEND_FAC|RECV|RECV_FAC|TS|X|ORU|CTRL1\rPID|1" "TS2"
     ["MSH|^~\\&|SEND|SEND_FAC|RECV|RECV_FAC|TS|X|ORU|CTRL1".data, "PID|1".data]
     { msh3 := "RECV", msh4 := "RECV_FAC", msh5 := "SEND", msh6 := "SEND_FAC",
       msh7 := "TS2", msh9 := "ACK", msh10 := "ACK12345",
       msa1 := "AA", msa2 := "CTRL1", msa3 := "" }
     (by decide) (by decide)⟩

/-- C10: every successfully built accept acknowledgment carries the
fixed control ID `ACK12345` in its own MSH-10, identical across all
accepted messages; only the reject acknowledgment generates a
per-message control ID, `ERR` followed by the timestamp. -/
theorem ack_control_ids :
    (∀ (orig now : String) (a : AckMsg),
       ack_message_back orig now = some a → a.msh10 = "ACK12345") ∧
    (∀ (orig now : String) (a : AckMsg),
       create_error_ack orig now = some a → a.msh10 = "ERR" ++ now) := by
  constructor
  · intro orig now a ha
    unfold ack_message_back at ha
    cases hp : parse orig with
    | none => rw [hp, Option.map_none'] at ha; exact absurd ha (by simp)
    | some segs =>
      rw [hp, Option.map_some'] at ha
      obtain rfl := Option.some.inj ha
      rfl
  · intro orig now a ha
    unfold create_error_ack at ha
    cases hp : parse orig with
    | none => rw [hp, Option.map_none'] at ha; exact absurd ha (by simp)
    | some segs =>
      rw [hp, Option.map_some'] at ha
      obtain rfl := Option.some.inj ha
      rfl

/-- C10 witness: a concrete accepted message gets control ID
`ACK12345`, the concrete rejected one gets `ERR` + timestamp. -/
theorem ack_control_ids_witness :
    ack_message_back "MSH|^~\\&|A|B|C|D\rPID|1" "T" =
      some { msh3 := "C", msh4 := "D", msh5 := "A", msh6 := "B",
             msh7 := "T", msh9 := "ACK", msh10 := "ACK12345",
             msa1 := "AA", msa2 := "", msa3 := "" } ∧
    AckMsg.msh10 { msh3 := "C", msh4 := "D", msh5 := "A", msh6 := "B",
                   msh7 := "T", msh9 := "ACK", msh10 := "ACK12345",
                   msa1 := "AA", msa2 := "", msa3 := "" } = "ACK12345" ∧
    create_error_ack "MSH|^~\\&|A|B|C|D\rOBX|1" "T" =
      some { msh3 := "C", msh4 := "D", msh5 := "A", msh6 := "B",
             msh7 := "T", msh9 := "ACK", msh10 := "ERR" ++ "T", msa1 := "AE", msa2 := "",
             msa3 := "Message validation failed: missing required segments" } ∧
    AckMsg.msh10 { msh3 := "C", msh4 := "D", msh5 := "A", msh6 := "B",
                   msh7 := "T", msh9 := "ACK", msh10 := "ERR" ++ "T", msa1 := "AE", msa2 := "",
                   msa3 := "Message validation failed: missing required segments" } =
      "ERR" ++ "T" :=
  ⟨by decide,
   ack_control_ids.1 "MSH|^~\\&|A|B|C|D\rPID|1" "T"
     { msh3 := "C", msh4 := "D", msh5 := "A", msh6 := "B",
       msh7 := "T", msh9 := "ACK", msh10 := "ACK12345",
       msa1 := "AA", msa2 := "", msa3 := "" } (by decide),
   by decide,
   ack_control_ids.2 "MSH|^~\\&|A|B|C|D\rOBX|1" "T"
     { msh3 := "C", msh4 := "D", msh5 := "A", msh6 := "B",
       msh7 := "T", msh9 := "ACK", msh10 := "ERR" ++ "T", msa1 := "AE", msa2 := "",
       msa3 := "Message validation failed: missing required segments" } (by decide)⟩

/-- C2: validation returns `true` exactly when the input parses as an
ER7 message whose segment-name set contains both `MSH` and `PID`;
any parse failure yields `false`, and `validate_message` being a
total Lean function models that no exception reaches its caller. -/
theorem validate_message_iff (data : String) :
    validate_message data = true ↔
      ∃ segs, parse data = some segs ∧
        "MSH" ∈ segNames segs ∧ "PID" ∈ segNames segs := by
  unfold validate_message
  cases hp : parse data with
  | none => simp
  | some segs =>
    simp only [Bool.and_eq_true]
    constructor
    · intro h
      exact ⟨segs, rfl, List.elem_iff.mp h.1, List.elem_iff.mp h.2⟩
    · intro h
      obtain ⟨s2, hs2, h1, h2⟩ := h
      obtain rfl := Option.some.inj hs2
      exact ⟨List.elem_iff.mpr h1, List.elem_iff.mpr h2⟩

/-- C2 witness: the spec's examples — a message with segments
`MSH, PID, OBX` validates true, one with `MSH, OBX` validates false,
and an unparseable string validates false. -/
theorem validate_message_iff_witness :
    validate_message "MSH|^~\\&|A\rPID|1\rOBX|1" = true ∧
    validate_message "MSH|^~\\&|A\rOBX|1" = false ∧
    validate_message "garbage" = false :=
  ⟨(validate_message_iff "MSH|^~\\&|A\rPID|1\rOBX|1").mpr
     ⟨["MSH|^~\\&|A".data, "PID|1".data, "OBX|1".data], by decide, by decide, by decide⟩,
   by decide, by decide⟩

/-- C6: the receiver has no stream frame extraction.  Feeding the
concatenation of two framed payloads to `remove_mllp_framing_bytes`
(all the de-framing the receiver has) yields one string with the
inner end/start markers embedded in it — not the payload sequence
`[x, y]` — and the prefix of an incomplete frame is passed through
with its start marker still attached rather than being retained for
reassembly on the next read. -/
theorem mllp_no_stream_reassembly :
    remove_mllp_framing_bytes (wrap_with_mllp "A" ++ wrap_with_mllp "B") =
      String.mk ['A', Char.ofNat 28, '\r', Char.ofNat 11, 'B'] ∧
    remove_mllp_framing_bytes ((wrap_with_mllp "A").take 2) =
      String.mk [Char.ofNat 11, 'A'] := by
  constructor
  · rfl
  · rfl

/-- C3 counterexample: the claim — every received frame is persisted
exactly once regardless of ack-write success, an ack-send failure
does not suppress persistence, and a persistence failure does not
drop subsequent frames — is false at these concrete inputs.  The
frame is a valid message; its accept ACK is built, the ack write
raises, and `write_to_file` is then never reached, so the frame is
persisted zero times and the session dies.  In the second session,
the first frame's persistence failure drops the second frame
entirely. -/
theorem session_persistence_counterexample :
    validate_message "MSH|^~\\&|S|SF|R|RF|TS|X|ORU|C1\rPID|1" = true ∧
    persistedMsgs
      (session [("MSH|^~\\&|S|SF|R|RF|TS|X|ORU|C1\rPID|1", ⟨false, true, "T"⟩)]).1 = [] ∧
    (session [("MSH|^~\\&|S|SF|R|RF|TS|X|ORU|C1\rPID|1", ⟨false, true, "T"⟩)]).2 =
      some SessErr.sendFailed ∧
    persistedMsgs
      (session [("MSH|^~\\&|S|SF|R|RF|TS|X|ORU|C1\rPID|1", ⟨true, false, "T"⟩),
                ("MSH|^~\\&|S|SF|R|RF|TS|X|ORU|C2\rPID|2", ⟨true, true, "T"⟩)]).1 = [] ∧
    (session [("MSH|^~\\&|S|SF|R|RF|TS|X|ORU|C1\rPID|1", ⟨true, false, "T"⟩),
              ("MSH|^~\\&|S|SF|R|RF|TS|X|ORU|C2\rPID|2", ⟨true, true, "T"⟩)]).2 =
      some SessErr.persistFailed := by
  refine ⟨by decide, by decide, by decide, by decide, by decide⟩

/-- C3 amended: each received frame is persisted exactly once
provided its ack write (when an ack was built) and its persistence
both succeed, independently of the validation outcome and of whether
an ack could be built at all; but a failure while sending the ack
raises before `write_to_file`, suppressing that frame's persistence
and ending the session, and a persistence failure ends the session,
dropping subsequent frames. -/
theorem session_persistence_amended :
    (∀ frames : List (String × FrameEnv),
       (∀ f ∈ frames, (Prod.snd f).sendOk = true ∧ (Prod.snd f).persistOk = true) →
       persistedMsgs (session frames).1 = frames.map Prod.fst ∧
       (session frames).2 = none) ∧
    (∀ (msg : String) (env : FrameEnv) (rest : List (String × FrameEnv)),
       env.sendOk = false → (ackFor msg env.now).isSome →
       session ((msg, env) :: rest) = ([], some SessErr.sendFailed)) ∧
    (∀ (msg : String) (env : FrameEnv) (rest : List (String × FrameEnv)),
       env.sendOk = true → env.persistOk = false →
       persistedMsgs (session ((msg, env) :: rest)).1 = [] ∧
       (session ((msg, env) :: rest)).2 = some SessErr.persistFailed) := by
  refine ⟨?_, ?_, ?_⟩
  · intro frames
    induction frames with
    | nil => intro _; exact ⟨rfl, rfl⟩
    | cons f rest ih =>
      intro h
      obtain ⟨msg, env⟩ := f
      obtain ⟨hs, hp⟩ := h (msg, env) (List.mem_cons_self _ _)
      have hs2 : env.sendOk = true := hs
      have hp2 : env.persistOk = true := hp
      have hrest := ih (fun g hg => h g (List.mem_cons_of_mem _ hg))
      cases hack : ackFor msg env.now with
      | some a =>
        simp only [session, processFrame, hack, hs2, hp2, if_true]
        simp only [persistedMsgs, List.filterMap_append] at hrest ⊢
        simp [hrest.1, hrest.2]
      | none =>
        simp only [session, processFrame, hack, hp2, if_true]
        simp only [persistedMsgs, List.filterMap_append] at hrest ⊢
        simp [hrest.1, hrest.2]
  · intro msg env rest hs hsome
    obtain ⟨a, hack⟩ := Option.isSome_iff_exists.mp hsome
    simp [session, processFrame, hack, hs]
  · intro msg env rest hs hp
    cases hack : ackFor msg env.now with
    | some a => simp [session, processFrame, hack, hs, hp, persistedMsgs]
    | none => simp [session, processFrame, hack, hp, persistedMsgs]

/-- C3 amended witness: a two-frame session in which every ack write
and every persistence succeeds persists exactly the two frames, in
order, and ends without an exception; and the suppression clauses at
concrete inputs. -/
theorem session_persistence_amended_witness :
    (persistedMsgs
       (session [("MSH|^~\\&|S|SF|R|RF|TS|X|ORU|C1\rPID|1", ⟨true, true, "T"⟩),
                 ("nonsense", ⟨true, true, "T"⟩)]).1 =
       ["MSH|^~\\&|S|SF|R|RF|TS|X|ORU|C1\rPID|1", "nonsense"] ∧
     (session [("MSH|^~\\&|S|SF|R|RF|TS|X|ORU|C1\rPID|1", ⟨true, true, "T"⟩),
               ("nonsense", ⟨true, true, "T"⟩)]).2 = none) ∧
    session [("MSH|^~\\&|S|SF|R|RF|TS|X|ORU|C1\rPID|1", ⟨false, true, "T"⟩)] =
      ([], some SessErr.sendFailed) ∧
    (persistedMsgs
       (session [("MSH|^~\\&|S|SF|R|RF|TS|X|ORU|C1\rPID|1", ⟨true, false, "T"⟩)]).1 = [] ∧
     (session [("MSH|^~\\&|S|SF|R|RF|TS|X|ORU|C1\rPID|1", ⟨true, false, "T"⟩)]).2 =
       some SessErr.persistFailed) :=
  ⟨session_persistence_amended.1
     [("MSH|^~\\&|S|SF|R|RF|TS|X|ORU|C1\rPID|1", ⟨true, true, "T"⟩),
      ("nonsense", ⟨true, true, "T"⟩)] (by decide),
   session_persistence_amended.2.1 "MSH|^~\\&|S|SF|R|RF|TS|X|ORU|C1\rPID|1"
     ⟨false, true, "T"⟩ [] (by decide) (by decide),
   session_persistence_amended.2.2 "MSH|^~\\&|S|SF|R|RF|TS|X|ORU|C1\rPID|1"
     ⟨true, false, "T"⟩ [] (by decide) (by decide)⟩

/-- C9: when acknowledgment construction fails for an inbound
message (any failure reading the required MSH fields of a malformed
original), the receiver sends no response for that message — no
partial or corrupt ack is written — and, persistence permitting, the
loop iteration raises nothing, so the session goes on reading the
subsequent frames. -/
theorem ack_failure_no_response (msg : String) (env : FrameEnv)
    (rest : List (String × FrameEnv))
    (hack : ackFor msg env.now = none) (hp : env.persistOk = true) :
    sentAcks (processFrame msg env).1 = [] ∧
    (processFrame msg env).2 = none ∧
    session ((msg, env) :: rest) =
      ((processFrame msg env).1 ++ (session rest).1, (session rest).2) := by
  refine ⟨?_, ?_, ?_⟩
  · simp [processFrame, hack, hp, sentAcks]
  · simp [processFrame, hack, hp]
  · simp [session, processFrame, hack, hp]

/-- C9 witness: an unparseable frame gets no ack at all, and the
session still processes the following valid frame. -/
theorem ack_failure_no_response_witness :
    ackFor "garbage" (FrameEnv.now ⟨true, true, "T"⟩) = none ∧
    FrameEnv.persistOk ⟨true, true, "T"⟩ = true ∧
    (sentAcks (processFrame "garbage" ⟨true, true, "T"⟩).1 = [] ∧
     (processFrame "garbage" ⟨true, true, "T"⟩).2 = none ∧
     session [("garbage", ⟨true, true, "T"⟩),
              ("MSH|^~\\&|S|SF|R|RF|TS|X|ORU|C1\rPID|1", ⟨true, true, "T"⟩)] =
       ((processFrame "garbage" ⟨true, true, "T"⟩).1 ++
          (session [("MSH|^~\\&|S|SF|R|RF|TS|X|ORU|C1\rPID|1", ⟨true, true, "T"⟩)]).1,
        (session [("MSH|^~\\&|S|SF|R|RF|TS|X|ORU|C1\rPID|1", ⟨true, true, "T"⟩)]).2)) :=
  ⟨by decide, by decide,
   ack_failure_no_response "garbage" ⟨true, true, "T"⟩
     [("MSH|^~\\&|S|SF|R|RF|TS|X|ORU|C1\rPID|1", ⟨true, true, "T"⟩)]
     (by decide) (by decide)⟩

/-- C4: whenever a send attempt hits a broken pipe while the attempt
cap is not yet reached, the engine backs off the fixed 300 time
units, reconnects with a fresh socket to the same host and port, and
retries the same message with the attempt counter incremented; and
the concrete scenario of 2 broken-pipe failures followed by a
success delivers the message exactly once past reconnection, with
exactly 2 reconnect attempts (the full event trace). -/
theorem send_retry_backoff :
    (∀ (host : String) (port : Nat) (outcomes : List Outcome) (attempt fuel : Nat),
       outcomes.getD attempt Outcome.ok = Outcome.brokenPipe →
       sendLoopAux host port outcomes attempt (fuel + 1) =
         ((sendLoopAux host port outcomes (attempt + 1) fuel).1,
          SendEv.backoff 300 :: SendEv.reconnect host port ::
            (sendLoopAux host port outcomes (attempt + 1) fuel).2)) ∧
    (∀ (host : String) (port : Nat),
       sendOneMessage host port [Outcome.brokenPipe, Outcome.brokenPipe, Outcome.ok] =
         (true, [SendEv.backoff 300, SendEv.reconnect host port,
                 SendEv.backoff 300, SendEv.reconnect host port, SendEv.delivered])) := by
  constructor
  · intro host port outcomes attempt fuel h
    simp only [sendLoopAux]
    rw [h]
  · intro host port
    rfl

/-- C4 witness: the backoff/reconnect step at a concrete broken-pipe
attempt, and the concrete two-failures-then-success trace. -/
theorem send_retry_backoff_witness :
    ([Outcome.brokenPipe].getD 0 Outcome.ok = Outcome.brokenPipe ∧
     sendLoopAux "epic" 20480 [Outcome.brokenPipe] 0 5 =
       ((sendLoopAux "epic" 20480 [Outcome.brokenPipe] 1 4).1,
        SendEv.backoff 300 :: SendEv.reconnect "epic" 20480 ::
          (sendLoopAux "epic" 20480 [Outcome.brokenPipe] 1 4).2)) ∧
    sendOneMessage "epic" 20480 [Outcome.brokenPipe, Outcome.brokenPipe, Outcome.ok] =
      (true, [SendEv.backoff 300, SendEv.reconnect "epic" 20480,
              SendEv.backoff 300, SendEv.reconnect "epic" 20480, SendEv.delivered]) :=
  ⟨⟨by decide,
    send_retry_backoff.1 "epic" 20480 [Outcome.brokenPipe] 0 4 (by decide)⟩,
   send_retry_backoff.2 "epic" 20480⟩

theorem runDeliveries_attempted (host : String) (port : Nat) :
    ∀ (msgs : List (List Outcome)) (j : Nat),
      j < (runDeliveries host port msgs).length →
      ∀ i, i < j → (sendOneMessage host port (msgs.getD i [])).1 = true := by
  intro msgs
  induction msgs with
  | nil => intro j hj; simp [runDeliveries] at hj
  | cons outs rest ih =>
    intro j hj i hij
    cases hs : (sendOneMessage host port outs).1 with
    | true =>
      cases i with
      | zero => simpa [List.getD] using hs
      | succ i2 =>
        cases j with
        | zero => omega
        | succ j2 =>
          have hj2 : j2 < (runDeliveries host port rest).length := by
            simp only [runDeliveries, hs, if_true, List.length_cons] at hj
            omega
          simpa [List.getD] using ih j2 hj2 i2 (by omega)
    | false =>
      have hj1 : j < 1 := by
        simp only [runDeliveries, hs, if_false] at hj
        simpa using hj
      omega

/-- C5: the run is fail-fast — a message is attempted only if every
earlier message in enumeration order was delivered successfully; any
message whose send loop ends unsuccessfully terminates the run with
no subsequent message attempted; and both exhausting all 5
broken-pipe attempts and any non-broken-pipe delivery error end the
send loop unsuccessfully. -/
theorem run_fail_fast :
    (∀ (host : String) (port : Nat) (msgs : List (List Outcome)) (j : Nat),
       j < (runDeliveries host port msgs).length →
       ∀ i, i < j → (sendOneMessage host port (msgs.getD i [])).1 = true) ∧
    (∀ (host : String) (port : Nat) (outs : List Outcome)
       (rest : List (List Outcome)),
       (sendOneMessage host port outs).1 = false →
       runDeliveries host port (outs :: rest) = [sendOneMessage host port outs]) ∧
    (∀ (host : String) (port : Nat),
       (sendOneMessage host port (List.replicate 5 Outcome.brokenPipe)).1 = false) ∧
    (∀ (host : String) (port : Nat),
       (sendOneMessage host port [Outcome.otherError]).1 = false) := by
  refine ⟨runDeliveries_attempted, ?_, ?_, ?_⟩
  · intro host port outs rest hs
    simp [runDeliveries, hs]
  · intro host port
    rfl
  · intro host port
    rfl

/-- C5 witness: with a run over two messages where the first fails
with a non-network error, only the first is attempted; a run of two
successful messages attempts both; the five-broken-pipes and
other-error loops fail at concrete inputs. -/
theorem run_fail_fast_witness :
    (sendOneMessage "epic" 20480 ([[Outcome.ok], [Outcome.ok]].getD 0 [])).1 = true ∧
    runDeliveries "epic" 20480 [[Outcome.otherError], [Outcome.ok]] =
      [sendOneMessage "epic" 20480 [Outcome.otherError]] ∧
    (sendOneMessage "epic" 20480 (List.replicate 5 Outcome.brokenPipe)).1 = false ∧
    (sendOneMessage "epic" 20480 [Outcome.otherError]).1 = false :=
  ⟨run_fail_fast.1 "epic" 20480 [[Outcome.ok], [Outcome.ok]] 1 (by decide) 0 (by decide),
   run_fail_fast.2.1 "epic" 20480 [Outcome.otherError] [[Outcome.ok]] (by decide),
   run_fail_fast.2.2.1 "epic" 20480,
   run_fail_fast.2.2.2 "epic" 20480⟩

theorem renumber_length (ls : List String) (n : Nat) :
    (renumber ls n).length = ls.length := by
  induction ls generalizing n with
  | nil => rfl
  | cons l ls ih => simp [renumber, ih]

theorem renumber_getD (ls : List String) (n i : Nat) (h : i < ls.length) :
    (renumber ls n).getD i "" = setSeq (ls.getD i "") (n + i) := by
  induction ls generalizing n i with
  | nil => simp at h
  | cons l ls ih =>
    cases i with
    | zero => rfl
    | succ i2 =>
      have h2 : i2 < ls.length := by simpa using h
      simp only [renumber, List.getD_cons_succ]
      rw [ih (n + 1) i2 h2]
      have he : n + 1 + i2 = n + (i2 + 1) := by omega
      rw [he]

/-- C7: the stitcher's per-name merge produces no output when the
second (response) side has no OBX segments; otherwise the output is
the first (result) side's lines with the response's OBX segments
spliced in at the insertion index — their sequence-number field
rewritten to consecutive values starting at one plus the count of
OBX segments on the first side, preserving their relative order —
where the insertion index is the first line starting with `SPM|` or
`ZSP|` scanning top-down (no earlier line matches), or the end of
the lines when no such line exists. -/
theorem stitch_spec (res resp : List String) :
    (stitch res resp = none ↔ get_obx_segments resp = []) ∧
    (∀ out, stitch res resp = some out →
        out = res.take (insertIdx res) ++
          renumber (get_obx_segments resp) ((get_obx_segments res).length + 1) ++
          res.drop (insertIdx res)) ∧
    ((renumber (get_obx_segments resp) ((get_obx_segments res).length + 1)).length =
        (get_obx_segments resp).length) ∧
    (∀ i, i < (get_obx_segments resp).length →
        (renumber (get_obx_segments resp) ((get_obx_segments res).length + 1)).getD i "" =
          setSeq ((get_obx_segments resp).getD i "")
            ((get_obx_segments res).length + 1 + i)) ∧
    (∀ j, j < insertIdx res → isTerminalLine (res.getD j "") = false) ∧
    (insertIdx res < res.length →
        isTerminalLine (res.getD (insertIdx res) "") = true) ∧
    insertIdx res ≤ res.length := by
  have hdef : stitch res resp =
      (if (get_obx_segments resp).isEmpty then none
       else some (res.take (insertIdx res) ++
         renumber (get_obx_segments resp) ((get_obx_segments res).length + 1) ++
         res.drop (insertIdx res))) := rfl
  refine ⟨?_, ?_, renumber_length _ _, fun i hi => renumber_getD _ _ i hi, ?_, ?_, ?_⟩
  · rw [hdef]
    by_cases he : (get_obx_segments resp).isEmpty
    · simp [he, List.isEmpty_iff.mp he]
    · simp only [Bool.not_eq_true] at he
      simp [he, List.isEmpty_eq_false.mp he]
  · intro out h
    rw [hdef] at h
    by_cases he : (get_obx_segments resp).isEmpty
    · rw [if_pos he] at h; simp at h
    · rw [if_neg he] at h
      exact (Option.some.inj h).symm
  · intro j hj
    have hlen : j < res.length := lt_of_lt_of_le hj (List.findIdx_le_length _)
    have hgd : res.getD j "" = res.get ⟨j, hlen⟩ := by
      simp [List.getD_eq_getElem?_getD, List.getElem?_eq_getElem hlen]
    rw [hgd]
    exact List.not_of_lt_findIdx hj
  · intro h2
    have hgd : res.getD (insertIdx res) "" = res.get ⟨insertIdx res, h2⟩ := by
      simp [List.getD_eq_getElem?_getD, List.getElem?_eq_getElem h2]
    rw [hgd]
    exact List.findIdx_getElem
  · exact List.findIdx_le_length _

/-- C7 witness: a concrete merge — one OBX on the result side, two
on the response side, renumbered to 2 and 3 and inserted before the
`SPM` line; plus an empty response OBX set yielding no output. -/
theorem stitch_spec_witness :
    stitch ["MSH|1", "OBX|1|A", "SPM|1"] ["MSH|1", "OBX|1|B", "OBX|2|C"] =
      some ["MSH|1", "OBX|1|A", "OBX|2|B", "OBX|3|C", "SPM|1"] ∧
    (["MSH|1", "OBX|1|A", "OBX|2|B", "OBX|3|C", "SPM|1"] :
        List String) =
      (["MSH|1", "OBX|1|A", "SPM|1"] : List String).take
          (insertIdx ["MSH|1", "OBX|1|A", "SPM|1"]) ++
        renumber (get_obx_segments ["MSH|1", "OBX|1|B", "OBX|2|C"])
          ((get_obx_segments ["MSH|1", "OBX|1|A", "SPM|1"]).length + 1) ++
        (["MSH|1", "OBX|1|A", "SPM|1"] : List String).drop
          (insertIdx ["MSH|1", "OBX|1|A", "SPM|1"]) ∧
    stitch ["MSH|1", "OBX|1|A", "SPM|1"] ["MSH|1", "PID|1"] = none :=
  ⟨by decide,
   (stitch_spec ["MSH|1", "OBX|1|A", "SPM|1"] ["MSH|1", "OBX|1|B", "OBX|2|C"]).2.1
     ["MSH|1", "OBX|1|A", "OBX|2|B", "OBX|3|C", "SPM|1"] (by decide),
   (stitch_spec ["MSH|1", "OBX|1|A", "SPM|1"] ["MSH|1", "PID|1"]).1.mpr (by decide)⟩

end HL7
